import Mathlib

/-!
Shallow embedding of the Wi-Fi map server (src/server.py) and verification
of its specification claims.

The server is a small FastAPI application over a Postgres table
`wifi_points (id, latitude, longitude, address, ratings, avg_rating)`.
Numbers are modelled over `ℚ` (the rating arithmetic is exact decimal
arithmetic on small integers, where Python's float behaves like `ℚ`),
machine `int`s as `ℤ`, SQL NULL as `Option`, and the database table as an
association list from ids to rows.  Request handlers become pure functions
from (store, request data) to (response, store); an exception escaping a
handler is modelled as a distinguished `raised` response (FastAPI turns it
into a 500).
-/

namespace GNet

/-- Python's `round(x, 2)` at the integer step: round a rational to the
nearest integer, ties to the even integer (Python rounds half to even). -/
def roundHalfEven (q : ℚ) : ℤ :=
  if q - ⌊q⌋ < 1/2 then ⌊q⌋
  else if 1/2 < q - ⌊q⌋ then ⌊q⌋ + 1
  else if ⌊q⌋ % 2 = 0 then ⌊q⌋ else ⌊q⌋ + 1

/-- Python's `round(x, 2)` (src/server.py line 227): round to two decimal
places, half to even, modelled exactly over `ℚ`. -/
def round2 (q : ℚ) : ℚ := (roundHalfEven (100 * q) : ℚ) / 100

/-- A JSON value as produced by `json.loads` for the request body fields
used by this server (scalars; nested arrays/objects do not occur in any
rating request this development reasons about). -/
inductive JValue where
  | null : JValue
  | bool (b : Bool) : JValue
  | int (n : ℤ) : JValue
  | float (q : ℚ) : JValue
  | str (s : String) : JValue
deriving DecidableEq

/-- Python's `isinstance(rating, int)` (src/server.py line 196).  In
Python `bool` is a subclass of `int`, so `True` and `False` pass this
check; real JSON floats, strings and null do not. -/
def isinstance_int : JValue → Bool
  | .int _ => true
  | .bool _ => true
  | _ => false

/-- The numeric value Python arithmetic and comparisons see for a rating
that passed `isinstance(rating, int)`: an `int` is itself, `True == 1`
and `False == 0`.  (Other constructors are unreachable after the
`isinstance` check; they are mapped to 0.) -/
def jvalueToInt : JValue → ℤ
  | .int n => n
  | .bool b => if b then 1 else 0
  | _ => 0

/-- Second definition, following the spec's words rather than the source,
for comparison with the source's `isinstance` check: the rating payload
value "is an integer" when it is a JSON integer literal; JSON `true` and
`false` are booleans, not integers. -/
def specIntegerRating : JValue → Bool
  | .int _ => true
  | _ => false

/-- One row of the `wifi_points` table (§6 persisted schema):
`id` is the association-list key; `ratings` is an integer-array column
(NULL when never rated), `avg_rating` a numeric column (NULL when never
rated). -/
structure WifiRow where
  latitude : ℚ
  longitude : ℚ
  address : Option String
  ratings : Option (List ℤ)
  avg_rating : Option ℚ
deriving DecidableEq

/-- The `wifi_points` table: rows keyed by integer id. -/
abbrev Store := List (ℤ × WifiRow)

/-- The row-by-id read `SELECT ... FROM wifi_points WHERE id = %s`
(src/server.py lines 161, 211): first row whose key matches, if any. -/
def lookupRow (db : Store) (id : ℤ) : Option WifiRow :=
  (db.find? (fun e => e.1 == id)).map (fun e => e.2)

/-- The SQL `UPDATE wifi_points SET ... WHERE id = %s` (src/server.py
lines 223-227): rewrite every row whose key matches, leave the rest. -/
def updateRow (db : Store) (id : ℤ) (f : WifiRow → WifiRow) : Store :=
  db.map (fun e => if e.1 == id then (e.1, f e.2) else e)

/-- The single UPDATE of the rating route (src/server.py lines 223-227):
`SET ratings = %s, avg_rating = %s` — both columns written by one
statement, other columns untouched. -/
def setRatings (rs : List ℤ) (avg : ℚ) (row : WifiRow) : WifiRow :=
  ⟨row.latitude, row.longitude, row.address, some rs, some avg⟩

/-- Python `row[0] if row[0] else []` (src/server.py line 219): an SQL
NULL ratings column reads as `[]`; an empty array is falsy and also reads
as `[]`, which coincides with returning it unchanged. -/
def pyList : Option (List ℤ) → List ℤ
  | none => []
  | some l => l

/-- JSON bodies this server returns from the rating route. -/
inductive JBody where
  | errorMsg (msg : String) : JBody
  | okPoint (point_id : ℤ) : JBody
deriving DecidableEq

/-- Outcome of the rating handler: an HTTP response with a status code
and JSON body, or an exception escaping the handler (FastAPI reports it
as a 500 Internal Server Error). -/
inductive RateResp where
  | resp (status : ℕ) (body : JBody) : RateResp
  | raised (msg : String) : RateResp
deriving DecidableEq

/-- The parsed request body: `none` models a body `json.loads` rejects;
`some data` models a parsed JSON object as an association list (parsed
JSON objects have unique keys, `json.loads` keeps the last duplicate). -/
abbrev ReqBody := Option (List (String × JValue))

/-- The `POST /api/rate/{point_id}` handler `rate_point` (src/server.py
lines 179-233), after the API-key gate and the rate limiter have let the
request through.  Mirrors the source line by line:
`json.loads` failure raises (no try/except in the handler);
missing key → 400; `isinstance(rating, int)` failure → 400;
`rating < 1 or rating > 5` → 400; unknown id → the plain dict
`\x7b"error": "Точка не найдена"\x7d`, which FastAPI serialises with
status 200; otherwise append, recompute the mean, persist the list and
the rounded mean in one UPDATE, and answer 200 ok. -/
def rate_point (db : Store) (point_id : ℤ) (body : ReqBody) :
    RateResp × Store :=
  match body with
  | none => (.raised ("json.loads: request body is not valid JSON"), db)
  | some data =>
    match data.find? (fun kv => kv.1 == "rating") with
    | none => (.resp 400 (.errorMsg ("Rating field is required")), db)
    | some kv =>
      if isinstance_int kv.2 = false then
        (.resp 400 (.errorMsg ("Rating must be an integer")), db)
      else if jvalueToInt kv.2 < 1 ∨ 5 < jvalueToInt kv.2 then
        (.resp 400 (.errorMsg ("Rating must be between 1 and 5")), db)
      else
        match lookupRow db point_id with
        | none => (.resp 200 (.errorMsg ("Точка не найдена")), db)
        | some row =>
          (.resp 200 (.okPoint point_id),
           updateRow db point_id
             (setRatings (pyList row.ratings ++ [jvalueToInt kv.2])
               (round2 (((pyList row.ratings ++ [jvalueToInt kv.2]).sum : ℚ) /
                 ((pyList row.ratings ++ [jvalueToInt kv.2]).length : ℚ)))))

/-- The Rating Aggregator (spec §4.2), i.e. the aggregation step of
`rate_point` (src/server.py lines 219-221 and the rounding at line 227):
append the incoming rating, return the updated list and `round(mean, 2)`. -/
def addRating (existing : List ℤ) (incoming : ℤ) : List ℤ × ℚ :=
  (existing ++ [incoming],
   round2 (((existing ++ [incoming]).sum : ℚ) /
     ((existing ++ [incoming]).length : ℚ)))

/-- A point as handed to `create_map`: the dicts built by `main_page`
(src/server.py lines 120-126) always carry the keys `lat`, `lon` and
`rating`, with `rating = None` when `avg_rating` is SQL NULL. -/
structure MapPoint where
  lat : ℚ
  lon : ℚ
  rating : Option ℚ
deriving DecidableEq

/-- Folium marker colors used by `create_map` (src/server.py lines
91-97). -/
inductive MarkerColor where
  | gray : MarkerColor
  | darkorange : MarkerColor
  | blue : MarkerColor
  | green : MarkerColor
deriving DecidableEq

/-- The color chain of `create_map` for a numeric rating (src/server.py
lines 91-97): start from gray, then
`if rating > 0 and rating <= 2.5`, `elif rating > 2.5 and rating <= 4.5`,
`elif rating > 4.5`. -/
def markerColor (rating : ℚ) : MarkerColor :=
  if 0 < rating ∧ rating ≤ 2.5 then .darkorange
  else if 2.5 < rating ∧ rating ≤ 4.5 then .blue
  else if 4.5 < rating then .green
  else .gray

/-- Evaluating the color chain on `point.get('rating', 0)` (src/server.py
lines 90-97) under Python 3 semantics: the key is always present in the
dicts built by `main_page`, so the `0` default never applies; when its
value is `None`, the first comparison `rating > 0` raises
`TypeError` (`NoneType` is not ordered against `int`); a numeric value
goes through the chain. -/
def markerColorOfPoint : Option ℚ → Except String MarkerColor
  | none => .error ("TypeError: '>' not supported between instances of 'NoneType' and 'int'")
  | some r => .ok (markerColor r)

/-- Map centering of `create_map` (src/server.py lines 74-79): a
non-empty list is centered on the mean latitude and mean longitude,
an empty one on the fixed default (53.2020, 50.1590). -/
def mapCenter (wifi_points : List MapPoint) : ℚ × ℚ :=
  if wifi_points ≠ [] then
    (((wifi_points.map MapPoint.lat).sum) / (wifi_points.length : ℚ),
     ((wifi_points.map MapPoint.lon).sum) / (wifi_points.length : ℚ))
  else (53.2020, 50.1590)

/-- The marker loop of `create_map` (src/server.py lines 89-106) in
order: the first point whose rating is `None` raises, earlier points
each contribute one circle marker `(lat, lon, color)`. -/
def renderMarkers : List MapPoint → Except String (List (ℚ × ℚ × MarkerColor))
  | [] => .ok []
  | p :: ps =>
    match markerColorOfPoint p.rating with
    | .error e => .error e
    | .ok c =>
      match renderMarkers ps with
      | .error e => .error e
      | .ok ms => .ok ((p.lat, p.lon, c) :: ms)

/-- The observable content of the folium map `create_map` builds: its
center and its circle markers. -/
structure FoliumMap where
  location : ℚ × ℚ
  markers : List (ℚ × ℚ × MarkerColor)
deriving DecidableEq

/-- The renderer `create_map` (src/server.py lines 72-108): compute the
center, then add one marker per point; a `None` rating raises out of the
call (modelled as `Except.error`). -/
def create_map (wifi_points : List MapPoint) : Except String FoliumMap :=
  match renderMarkers wifi_points with
  | .error e => .error e
  | .ok ms => .ok ⟨mapCenter wifi_points, ms⟩

/-- One row of `SELECT latitude, longitude, avg_rating FROM wifi_points`
as fetched by `main_page` (src/server.py line 117). -/
structure DbRow where
  latitude : ℚ
  longitude : ℚ
  avg_rating : Option ℚ
deriving DecidableEq

/-- The row-to-dict conversion of `main_page` (src/server.py lines
120-126): `float(row[2]) if row[2] is not None else None` — NULL averages
become `None` ratings, numeric ones stay as they are. -/
def mainPagePoints (rows : List DbRow) : List MapPoint :=
  rows.map (fun r => ⟨r.latitude, r.longitude, r.avg_rating⟩)

/-- Python truthiness of the header value `request.headers.get(...)`
(src/server.py line 49, `if not api_key`): a missing header is `None`
(falsy) and a present-but-empty header is the empty string (also falsy). -/
def pyTruthy : Option String → Bool
  | none => false
  | some s => !s.isEmpty

/-- Observable outcome of one request through the middleware: status,
optional JSON error body, the store afterwards, and how many store
connections were opened while producing the response. -/
structure RouteOutcome where
  status : ℕ
  error : Option String
  db : Store
  connections_opened : ℕ
deriving DecidableEq

/-- The API-key middleware `verify_api_key_middleware` wrapped around an
arbitrary route handler (src/server.py lines 45-61): a falsy header value
answers 401 immediately, a truthy mismatch answers 403 immediately — in
both cases `call_next` never runs, so the handler opens no store
connection and the store is untouched; only a truthy match reaches the
handler. -/
def app_handle (header : Option String) (key : String) (db : Store)
    (handler : Store → RouteOutcome) : RouteOutcome :=
  if pyTruthy header = false then
    ⟨401, some ("API key is missing"), db, 0⟩
  else if header ≠ some key then
    ⟨403, some ("Invalid API key"), db, 0⟩
  else handler db

/-- The JSON body of the `GET /test-db` diagnostic route. -/
inductive TestDbBody where
  | ok (test : ℤ) : TestDbBody
  | error (msg : String) : TestDbBody
deriving DecidableEq

/-- The `GET /test-db` handler `test_db` (src/server.py lines 236-251).
Its whole store interaction (connect, `SELECT 1`, fetch) sits inside
`try`: on success the fetched row is `(1,)` and the handler returns the
ok body; any exception is caught and returned as the error body.  Both
returns are plain dicts, serialised with status 200. -/
def test_db (conn : Except String Unit) : ℕ × TestDbBody :=
  match conn with
  | .ok _ => (200, .ok 1)
  | .error e => (200, .error e)

/-! ## Helper lemmas -/

/-- Rounding an integer to two decimal places returns it unchanged. -/
theorem round2_intCast (n : ℤ) : round2 (n : ℚ) = n := by
  have h : (100 : ℚ) * (n : ℚ) = ((100 * n : ℤ) : ℚ) := by push_cast; ring
  rw [round2, h, roundHalfEven, Int.floor_intCast]
  norm_num

/-- Reading back the row the UPDATE targeted returns the rewritten row. -/
theorem lookup_update_same (db : Store) (id : ℤ) (f : WifiRow → WifiRow) :
    lookupRow (updateRow db id f) id = (lookupRow db id).map f := by
  induction db with
  | nil => rfl
  | cons e t ih =>
    by_cases h : e.1 = id
    · simp [lookupRow, updateRow, List.find?_cons, h]
    · simp only [lookupRow, updateRow, List.map_cons] at ih ⊢
      rw [if_neg (by simpa using h)]
      rw [List.find?_cons_of_neg _ (by simpa using h),
        List.find?_cons_of_neg _ (by simpa using h)]
      exact ih

/-- Rows the UPDATE did not target read back unchanged. -/
theorem lookup_update_other (db : Store) (id j : ℤ) (f : WifiRow → WifiRow)
    (hj : j ≠ id) :
    lookupRow (updateRow db id f) j = lookupRow db j := by
  induction db with
  | nil => rfl
  | cons e t ih =>
    by_cases h : e.1 = id
    · simp only [lookupRow, updateRow, List.map_cons] at ih ⊢
      rw [if_pos (by simpa using h)]
      rw [List.find?_cons_of_neg _ (by simp [h, Ne.symm hj]),
        List.find?_cons_of_neg _ (by simp [h, Ne.symm hj])]
      exact ih
    · simp only [lookupRow, updateRow, List.map_cons] at ih ⊢
      rw [if_neg (by simpa using h)]
      by_cases hej : e.1 = j
      · rw [List.find?_cons_of_pos _ (by simpa using hej),
          List.find?_cons_of_pos _ (by simpa using hej)]
      · rw [List.find?_cons_of_neg _ (by simpa using hej),
          List.find?_cons_of_neg _ (by simpa using hej)]
        exact ih

/-! ## Claims -/

/-- C1: for every existing rating sequence `r` (possibly empty) and every
integer rating `n` in `[1,5]`, the rating-submission operation produces
the updated list `r ++ [n]` (appended at the end) and persists the
average `round2` of the mean of `r ++ [n]`; when `r` is empty the result
is `([n], n)`. -/
theorem C1_addRating_spec (r : List ℤ) (n : ℤ) (h1 : 1 ≤ n) (h5 : n ≤ 5) :
    addRating r n =
      (r ++ [n], round2 (((r ++ [n]).sum : ℚ) / ((r ++ [n]).length : ℚ))) ∧
    addRating [] n = ([n], (n : ℚ)) ∧
    (∀ (db : Store) (id : ℤ) (row : WifiRow),
      lookupRow db id = some row → row.ratings = some r →
        rate_point db id (some [("rating", .int n)]) =
          (.resp 200 (.okPoint id),
           updateRow db id (setRatings (addRating r n).1 (addRating r n).2))) := by
  refine ⟨rfl, ?_, ?_⟩
  · simp [addRating, round2_intCast]
  · intro db id row hrow hratings
    have hrange : ¬ (jvalueToInt (.int n) < 1 ∨ 5 < jvalueToInt (.int n)) := by
      simp [jvalueToInt]; omega
    simp [rate_point, List.find?, isinstance_int, hrow, hrange, hratings,
      pyList, addRating, jvalueToInt]
    exact ⟨h1, h5⟩

/-- Witness for C1 at `r = [1,2]`, `n = 1` (the spec's rounding example:
ratings become `[1,2,1]` and the persisted average is `1.33`). -/
theorem C1_addRating_spec_witness :
    addRating [1, 2] 1 = ([1, 2, 1], 1.33) ∧
    addRating ([] : List ℤ) 1 = ([1], (1 : ℚ)) ∧
    rate_point [((7 : ℤ), ⟨1, 2, none, some [1, 2], none⟩)] 7
        (some [("rating", .int 1)]) =
      (.resp 200 (.okPoint 7),
       [((7 : ℤ), ⟨1, 2, none, some [1, 2, 1], some 1.33⟩)]) := by
  obtain ⟨hmain, hempty, hpersist⟩ :=
    C1_addRating_spec [1, 2] 1 (by norm_num) (by norm_num)
  have hsum : ((([1, 2] ++ [1] : List ℤ).sum : ℚ) /
      (([1, 2] ++ [1] : List ℤ).length : ℚ)) = 4/3 := by
    norm_num
  have hfloor : ⌊(100 * (4/3 : ℚ))⌋ = 133 := by
    norm_num [Int.floor_eq_iff]
  have hround : round2 (4/3) = 1.33 := by
    rw [round2, roundHalfEven, hfloor]
    norm_num
  have hval : round2 ((([1, 2] ++ [1] : List ℤ).sum : ℚ) /
      (([1, 2] ++ [1] : List ℤ).length : ℚ)) = 1.33 := by
    rw [hsum, hround]
  refine ⟨?_, hempty, ?_⟩
  · rw [hmain, hval]
    norm_num
  · rw [hpersist [((7 : ℤ), ⟨1, 2, none, some [1, 2], none⟩)] 7
      ⟨1, 2, none, some [1, 2], none⟩ (by rfl) (by rfl)]
    simp [updateRow, setRatings, addRating, hval, hround]

/-- C2 counterexample: a POST to the rating route with the valid body
`rating = 3` for an id that does not exist answers with HTTP status 200
(carrying the error text in the body), not 404 as the claim states; the
store is indeed left unchanged. -/
theorem C2_rate_missing_point_counterexample :
    rate_point [] 1 (some [("rating", .int 3)]) =
      (.resp 200 (.errorMsg ("Точка не найдена")), []) ∧
    (200 : ℕ) ≠ 404 := by
  constructor
  · rfl
  · decide

/-- C2 amended: for every POST to the rating route whose body passes all
three validations (rating key present, passes `isinstance(_, int)`, value
in `[1,5]`) and whose point id has no row, the handler returns the plain
dict with the error text — serialised as HTTP 200, not 404 — and the
store is left unchanged. -/
theorem C2_rate_missing_point (db : Store) (id : ℤ)
    (data : List (String × JValue)) (kv : String × JValue)
    (hfind : data.find? (fun e => e.1 == "rating") = some kv)
    (hint : isinstance_int kv.2 = true)
    (h1 : 1 ≤ jvalueToInt kv.2) (h5 : jvalueToInt kv.2 ≤ 5)
    (habs : lookupRow db id = none) :
    rate_point db id (some data) =
      (.resp 200 (.errorMsg ("Точка не найдена")), db) := by
  have hrange : ¬ (jvalueToInt kv.2 < 1 ∨ 5 < jvalueToInt kv.2) := by omega
  simp [rate_point, hfind, hint, hrange, habs]

/-- Witness for C2 amended at the empty store and body `rating = 5`. -/
theorem C2_rate_missing_point_witness :
    rate_point [] 2 (some [("rating", .int 5)]) =
      (.resp 200 (.errorMsg ("Точка не найдена")), []) :=
  C2_rate_missing_point [] 2 [("rating", .int 5)] ("rating", .int 5)
    (by rfl) (by rfl) (by decide) (by decide) (by rfl)

/-- C3 counterexample: the body `rating = true` carries a JSON boolean,
which is not an integer, yet the handler neither answers 400 nor leaves
the store unchanged: Python's `isinstance(True, int)` holds, so the
request succeeds with 200 and the boolean is folded into the stored
ratings as 1. -/
theorem C3_validation_counterexample :
    specIntegerRating (.bool true) = false ∧
    rate_point [((1 : ℤ), ⟨0, 0, none, none, none⟩)] 1
        (some [("rating", .bool true)]) =
      (.resp 200 (.okPoint 1),
       [((1 : ℤ), ⟨0, 0, none, some [1], some 1⟩)]) ∧
    ([((1 : ℤ), (⟨0, 0, none, some [1], some 1⟩ : WifiRow))] : Store) ≠
      [((1 : ℤ), (⟨0, 0, none, none, none⟩ : WifiRow))] := by
  refine ⟨rfl, ?_, by simp⟩
  have h1 : round2 (1 : ℚ) = 1 := by
    have h := round2_intCast 1
    norm_num at h
    exact h
  simp [rate_point, lookupRow, List.find?, isinstance_int, jvalueToInt,
    pyList, updateRow, setRatings]
  norm_num [h1]

/-- C3 amended: over bodies that parse as a JSON object, each validation
failure — missing `rating` key, a value failing `isinstance(_, int)`
(note JSON booleans pass it), or a numeric value outside `[1,5]` —
answers 400 with its specific message and leaves the store unchanged;
a body `json.loads` cannot parse instead raises out of the handler
(FastAPI reports 500, not 400), also leaving the store unchanged. -/
theorem C3_validation (db : Store) (id : ℤ)
    (data : List (String × JValue)) :
    rate_point db id none =
      (.raised ("json.loads: request body is not valid JSON"), db) ∧
    (data.find? (fun e => e.1 == "rating") = none →
      rate_point db id (some data) =
        (.resp 400 (.errorMsg ("Rating field is required")), db)) ∧
    (∀ kv, data.find? (fun e => e.1 == "rating") = some kv →
      isinstance_int kv.2 = false →
      rate_point db id (some data) =
        (.resp 400 (.errorMsg ("Rating must be an integer")), db)) ∧
    (∀ kv, data.find? (fun e => e.1 == "rating") = some kv →
      isinstance_int kv.2 = true →
      (jvalueToInt kv.2 < 1 ∨ 5 < jvalueToInt kv.2) →
      rate_point db id (some data) =
        (.resp 400 (.errorMsg ("Rating must be between 1 and 5")), db)) := by
  refine ⟨rfl, ?_, ?_, ?_⟩
  · intro hfind
    simp [rate_point, hfind]
  · intro kv hfind hint
    simp [rate_point, hfind, hint]
  · intro kv hfind hint hrange
    simp [rate_point, hfind, hint, hrange]

/-- Witness for C3 amended: a malformed body raises; a missing rating
key, a string rating, the out-of-range ratings 0 and 6 each answer 400
with their message and leave the store untouched. -/
theorem C3_validation_witness :
    rate_point [((1 : ℤ), ⟨0, 0, none, none, none⟩)] 1 none =
      (.raised ("json.loads: request body is not valid JSON"),
       [((1 : ℤ), ⟨0, 0, none, none, none⟩)]) ∧
    rate_point [((1 : ℤ), ⟨0, 0, none, none, none⟩)] 1 (some []) =
      (.resp 400 (.errorMsg ("Rating field is required")),
       [((1 : ℤ), ⟨0, 0, none, none, none⟩)]) ∧
    rate_point [((1 : ℤ), ⟨0, 0, none, none, none⟩)] 1
        (some [("rating", .str ("five"))]) =
      (.resp 400 (.errorMsg ("Rating must be an integer")),
       [((1 : ℤ), ⟨0, 0, none, none, none⟩)]) ∧
    rate_point [((1 : ℤ), ⟨0, 0, none, none, none⟩)] 1
        (some [("rating", .int 0)]) =
      (.resp 400 (.errorMsg ("Rating must be between 1 and 5")),
       [((1 : ℤ), ⟨0, 0, none, none, none⟩)]) ∧
    rate_point [((1 : ℤ), ⟨0, 0, none, none, none⟩)] 1
        (some [("rating", .int 6)]) =
      (.resp 400 (.errorMsg ("Rating must be between 1 and 5")),
       [((1 : ℤ), ⟨0, 0, none, none, none⟩)]) := by
  refine ⟨(C3_validation _ 1 []).1, (C3_validation _ 1 []).2.1 (by rfl),
    ((C3_validation _ 1 _).2.2.1 ("rating", .str ("five")) (by rfl) (by rfl)),
    ((C3_validation _ 1 _).2.2.2 ("rating", .int 0) (by rfl) (by rfl)
      (by decide)),
    ((C3_validation _ 1 _).2.2.2 ("rating", .int 6) (by rfl) (by rfl)
      (by decide))⟩

/-- C4: after every successful rating submission, the persisted state of
the target point satisfies `avg_rating = round2 (mean ratings)`; the list
and the average are written by the one UPDATE of the handler, and every
other point's row is untouched. -/
theorem C4_average_invariant (db : Store) (id : ℤ) (body : ReqBody)
    (resp : RateResp) (db2 : Store) (pid : ℤ)
    (h : rate_point db id body = (resp, db2))
    (hok : resp = .resp 200 (.okPoint pid)) :
    ∃ rs : List ℤ, rs ≠ [] ∧
      db2 = updateRow db id
        (setRatings rs (round2 ((rs.sum : ℚ) / (rs.length : ℚ)))) ∧
      (∃ row2 : WifiRow, lookupRow db2 id = some row2 ∧
        row2.ratings = some rs ∧
        row2.avg_rating = some (round2 ((rs.sum : ℚ) / (rs.length : ℚ)))) ∧
      (∀ j : ℤ, j ≠ id → lookupRow db2 j = lookupRow db j) := by
  subst hok
  cases body with
  | none => exact absurd h (by simp [rate_point])
  | some data =>
    cases hfind : data.find? (fun e => e.1 == "rating") with
    | none =>
      rw [rate_point] at h
      rw [hfind] at h
      exact absurd h (by simp)
    | some kv =>
      by_cases hint : isinstance_int kv.2 = false
      · simp [rate_point, hfind, hint] at h
      · by_cases hrange : jvalueToInt kv.2 < 1 ∨ 5 < jvalueToInt kv.2
        · simp [rate_point, hfind, hint, hrange] at h
        · cases hrow : lookupRow db id with
          | none => simp [rate_point, hfind, hint, hrange, hrow] at h
          | some row =>
            have hres := h
            simp only [rate_point, hfind, hint, hrange, hrow,
              Bool.not_eq_false, if_neg, if_false, ite_false] at hres
            have hdb2 : db2 = updateRow db id
                (setRatings (pyList row.ratings ++ [jvalueToInt kv.2])
                  (round2 (((pyList row.ratings ++ [jvalueToInt kv.2]).sum : ℚ) /
                    ((pyList row.ratings ++ [jvalueToInt kv.2]).length : ℚ)))) := by
              have := congrArg Prod.snd hres
              simpa using this.symm
            refine ⟨pyList row.ratings ++ [jvalueToInt kv.2], by simp, hdb2, ?_, ?_⟩
            · refine ⟨setRatings (pyList row.ratings ++ [jvalueToInt kv.2])
                (round2 (((pyList row.ratings ++ [jvalueToInt kv.2]).sum : ℚ) /
                  ((pyList row.ratings ++ [jvalueToInt kv.2]).length : ℚ))) row,
                ?_, rfl, rfl⟩
              rw [hdb2, lookup_update_same, hrow]
              rfl
            · intro j hj
              rw [hdb2, lookup_update_other db id j _ hj]

/-- Witness for C4 at a store holding one point with ratings `[5]` and a
submission of rating `5`. -/
theorem C4_average_invariant_witness :
    ∃ rs : List ℤ, rs ≠ [] ∧
      (rate_point [((1 : ℤ), ⟨0, 0, none, some [5], none⟩)] 1
          (some [("rating", .int 5)])).2 =
        updateRow [((1 : ℤ), ⟨0, 0, none, some [5], none⟩)] 1
          (setRatings rs (round2 ((rs.sum : ℚ) / (rs.length : ℚ)))) ∧
      (∃ row2 : WifiRow,
        lookupRow (rate_point [((1 : ℤ), ⟨0, 0, none, some [5], none⟩)] 1
            (some [("rating", .int 5)])).2 1 = some row2 ∧
        row2.ratings = some rs ∧
        row2.avg_rating = some (round2 ((rs.sum : ℚ) / (rs.length : ℚ)))) ∧
      (∀ j : ℤ, j ≠ 1 →
        lookupRow (rate_point [((1 : ℤ), ⟨0, 0, none, some [5], none⟩)] 1
            (some [("rating", .int 5)])).2 j =
          lookupRow [((1 : ℤ), ⟨0, 0, none, some [5], none⟩)] j) :=
  C4_average_invariant [((1 : ℤ), ⟨0, 0, none, some [5], none⟩)] 1
    (some [("rating", .int 5)]) _ _ 1 rfl (by rfl)

/-- C5 counterexample: a request carrying the `x-api-key` header with the
empty-string value — present, and different from the configured key — is
answered 401 by the middleware's falsy-value check, not 403 as the claim
states for every present-but-mismatched key. -/
theorem C5_api_key_counterexample :
    (some ("") ≠ (none : Option String)) ∧ (("" : String) ≠ ("secret")) ∧
    app_handle (some ("")) ("secret") []
        (fun db => ⟨200, none, db, 1⟩) =
      ⟨401, some ("API key is missing"), [], 0⟩ ∧
    (401 : ℕ) ≠ 403 := by
  refine ⟨by simp, by simp, rfl, by decide⟩

/-- C5 amended: a missing header — and likewise a present-but-empty one,
both falsy in Python — answers 401 with its JSON error and opens no store
connection; a present, non-empty, mismatched key answers 403 with its
JSON error and opens no store connection; only a non-empty matching key
lets the route handler run. -/
theorem C5_api_key_gate (header : Option String) (key : String)
    (db : Store) (handler : Store → RouteOutcome) :
    (header = none →
      app_handle header key db handler =
        ⟨401, some ("API key is missing"), db, 0⟩) ∧
    (header = some ("") →
      app_handle header key db handler =
        ⟨401, some ("API key is missing"), db, 0⟩) ∧
    (∀ s, header = some s → s ≠ ("") → s ≠ key →
      app_handle header key db handler =
        ⟨403, some ("Invalid API key"), db, 0⟩) ∧
    (∀ s, header = some s → s ≠ ("") → s = key →
      app_handle header key db handler = handler db) := by
  refine ⟨?_, ?_, ?_, ?_⟩
  · intro h
    subst h
    rfl
  · intro h
    subst h
    rfl
  · intro s hs hne hkey
    subst hs
    have hempty : s.isEmpty = false := by
      cases h : s.isEmpty with
      | false => rfl
      | true => exact absurd ((String.isEmpty_iff s).mp h) hne
    have hfalse : pyTruthy (some s) = true := by
      simp [pyTruthy, hempty]
    simp [app_handle, hfalse, hkey]
  · intro s hs hne hkey
    subst hs
    subst hkey
    have hempty : s.isEmpty = false := by
      cases h : s.isEmpty with
      | false => rfl
      | true => exact absurd ((String.isEmpty_iff s).mp h) hne
    have hfalse : pyTruthy (some s) = true := by
      simp [pyTruthy, hempty]
    simp [app_handle, hfalse]

/-- Witness for C5 amended: with configured key `k`, a missing header and
an empty header each answer 401 with the store untouched and no
connection opened, the wrong key `w` answers 403 likewise, and the
matching key runs the handler (which here opens one connection). -/
theorem C5_api_key_gate_witness :
    app_handle none ("k") [] (fun db => ⟨200, none, db, 1⟩) =
      ⟨401, some ("API key is missing"), [], 0⟩ ∧
    app_handle (some ("")) ("k") [] (fun db => ⟨200, none, db, 1⟩) =
      ⟨401, some ("API key is missing"), [], 0⟩ ∧
    app_handle (some ("w")) ("k") [] (fun db => ⟨200, none, db, 1⟩) =
      ⟨403, some ("Invalid API key"), [], 0⟩ ∧
    app_handle (some ("k")) ("k") [] (fun db => ⟨200, none, db, 1⟩) =
      ⟨200, none, [], 1⟩ :=
  ⟨(C5_api_key_gate none ("k") [] _).1 rfl,
   (C5_api_key_gate (some ("")) ("k") [] _).2.1 rfl,
   (C5_api_key_gate (some ("w")) ("k") [] _).2.2.1 ("w") rfl
     (by decide) (by decide),
   (C5_api_key_gate (some ("k")) ("k") [] _).2.2.2 ("k") rfl
     (by decide) rfl⟩

/-- C6: a non-empty point list is centred on the arithmetic mean of all
latitudes and all longitudes, the empty list on the fixed fallback
coordinate (53.2020, 50.1590); whenever `create_map` succeeds, the map it
returns carries exactly this centre. -/
theorem C6_map_center (pts : List MapPoint) :
    (pts ≠ [] → mapCenter pts =
      (((pts.map MapPoint.lat).sum) / (pts.length : ℚ),
       ((pts.map MapPoint.lon).sum) / (pts.length : ℚ))) ∧
    (pts = [] → mapCenter pts = (53.2020, 50.1590)) ∧
    (∀ m, create_map pts = .ok m → m.location = mapCenter pts) := by
  refine ⟨fun h => by simp [mapCenter, h], fun h => by simp [mapCenter, h], ?_⟩
  intro m hm
  unfold create_map at hm
  cases hr : renderMarkers pts with
  | error e => rw [hr] at hm; cases hm
  | ok ms =>
    rw [hr] at hm
    cases hm
    rfl

/-- Witness for C6: the spec's example `[(10,20), (20,40)]` is centred at
`(15, 30)`, and the empty list at `(53.2020, 50.1590)`. -/
theorem C6_map_center_witness :
    mapCenter [⟨10, 20, some 3⟩, ⟨20, 40, some 3⟩] = (15, 30) ∧
    mapCenter [] = (53.2020, 50.1590) := by
  obtain ⟨hne, -, -⟩ :=
    C6_map_center [⟨10, 20, some 3⟩, ⟨20, 40, some 3⟩]
  obtain ⟨-, hemp, -⟩ := C6_map_center ([] : List MapPoint)
  refine ⟨?_, hemp rfl⟩
  rw [hne (by simp)]
  norm_num

/-- C7: the marker color of a rendered point is the rating band of
`create_map`: non-positive → gray, in `(0, 2.5]` → darkorange, in
`(2.5, 4.5]` → blue, above `4.5` → green. -/
theorem C7_marker_bands (r : ℚ) :
    (r ≤ 0 → markerColor r = .gray) ∧
    (0 < r → r ≤ 2.5 → markerColor r = .darkorange) ∧
    (2.5 < r → r ≤ 4.5 → markerColor r = .blue) ∧
    (4.5 < r → markerColor r = .green) := by
  refine ⟨fun h => ?_, fun h h2 => ?_, fun h h2 => ?_, fun h => ?_⟩
  · rw [markerColor, if_neg (by rintro ⟨h1, -⟩; linarith),
      if_neg (by rintro ⟨h1, -⟩; linarith), if_neg (by intro h1; linarith)]
  · rw [markerColor, if_pos ⟨h, h2⟩]
  · rw [markerColor, if_neg (by rintro ⟨-, h1⟩; linarith),
      if_pos ⟨h, h2⟩]
  · rw [markerColor, if_neg (by rintro ⟨-, h1⟩; linarith),
      if_neg (by rintro ⟨-, h1⟩; linarith), if_pos h]

/-- Witness for C7 at one rating per band: 0, 2, 4 and 5. -/
theorem C7_marker_bands_witness :
    markerColor 0 = .gray ∧ markerColor 2 = .darkorange ∧
    markerColor 4 = .blue ∧ markerColor 5 = .green :=
  ⟨(C7_marker_bands 0).1 (by norm_num),
   (C7_marker_bands 2).2.1 (by norm_num) (by norm_num),
   (C7_marker_bands 4).2.2.1 (by norm_num) (by norm_num),
   (C7_marker_bands 5).2.2.2 (by norm_num)⟩

/-- C8: the diagnostic route answers HTTP 200 whatever the store does; a
working store yields the ok body with `test = 1`, a failing store yields
the error body carrying the error message — never a propagated 500. -/
theorem C8_test_db_always_200 (conn : Except String Unit) :
    (test_db conn).1 = 200 ∧
    (conn = .ok () → (test_db conn).2 = .ok 1) ∧
    (∀ e, conn = .error e → (test_db conn).2 = .error e) := by
  cases conn with
  | ok u =>
    cases u
    refine ⟨rfl, fun _ => rfl, fun e he => ?_⟩
    cases he
  | error e =>
    refine ⟨rfl, fun h => ?_, fun e2 he => ?_⟩
    · cases h
    · cases he
      rfl

/-- Witness for C8 on a working store and on one failing with a message. -/
theorem C8_test_db_always_200_witness :
    (test_db (.ok ())).1 = 200 ∧ (test_db (.ok ())).2 = .ok 1 ∧
    (test_db (.error ("connection refused"))).1 = 200 ∧
    (test_db (.error ("connection refused"))).2 =
      .error ("connection refused") :=
  ⟨(C8_test_db_always_200 (.ok ())).1,
   (C8_test_db_always_200 (.ok ())).2.1 rfl,
   (C8_test_db_always_200 (.error ("connection refused"))).1,
   (C8_test_db_always_200 (.error ("connection refused"))).2.2
     ("connection refused") rfl⟩

/-- The marker loop raises the TypeError as soon as the list holds a
point whose rating is `None`. -/
theorem renderMarkers_error_of_none (pts : List MapPoint)
    (h : ∃ p ∈ pts, p.rating = none) :
    renderMarkers pts =
      .error ("TypeError: '>' not supported between instances of 'NoneType' and 'int'") := by
  induction pts with
  | nil => obtain ⟨p, hp, -⟩ := h; cases hp
  | cons q qs ih =>
    obtain ⟨p, hp, hnone⟩ := h
    rcases List.mem_cons.mp hp with hq | hmem
    · subst hq
      rw [renderMarkers, hnone]
      rfl
    · cases hq : q.rating with
      | none => rw [renderMarkers, hq]; rfl
      | some r =>
        rw [renderMarkers, hq]
        rw [ih ⟨p, hmem, hnone⟩]
        rfl

/-- The marker loop completes when every rating in the list is numeric. -/
theorem renderMarkers_ok_of_numeric (pts : List MapPoint)
    (h : ∀ p ∈ pts, p.rating ≠ none) :
    ∃ ms, renderMarkers pts = .ok ms := by
  induction pts with
  | nil => exact ⟨[], rfl⟩
  | cons q qs ih =>
    cases hq : q.rating with
    | none => exact absurd hq (h q (List.mem_cons_self q qs))
    | some r =>
      obtain ⟨ms, hms⟩ := ih (fun p hp => h p (List.mem_cons_of_mem q hp))
      refine ⟨(q.lat, q.lon, markerColor r) :: ms, ?_⟩
      rw [renderMarkers, hq]
      simp [markerColorOfPoint, hms]

/-- C9 (implicit): a point list holding a point whose rating is `None` —
exactly what `main_page` builds for a row whose stored average is NULL —
makes `create_map` raise the TypeError of the comparison `rating > 0`
instead of rendering that marker gray; the renderer completes exactly on
lists whose ratings are all numeric. -/
theorem C9_none_rating_raises (rows : List DbRow) :
    ((∃ r ∈ rows, r.avg_rating = none) →
      create_map (mainPagePoints rows) =
        .error ("TypeError: '>' not supported between instances of 'NoneType' and 'int'")) ∧
    ((∀ r ∈ rows, r.avg_rating ≠ none) →
      ∃ m, create_map (mainPagePoints rows) = .ok m) := by
  constructor
  · intro h
    obtain ⟨r, hr, hnone⟩ := h
    have hmem : (⟨r.latitude, r.longitude, r.avg_rating⟩ : MapPoint) ∈
        mainPagePoints rows := List.mem_map_of_mem _ hr
    have herr := renderMarkers_error_of_none (mainPagePoints rows)
      ⟨⟨r.latitude, r.longitude, r.avg_rating⟩, hmem, hnone⟩
    rw [create_map, herr]
  · intro h
    have hnum : ∀ p ∈ mainPagePoints rows, p.rating ≠ none := by
      intro p hp
      obtain ⟨r, hr, hpr⟩ := List.mem_map.mp hp
      subst hpr
      exact h r hr
    obtain ⟨ms, hms⟩ := renderMarkers_ok_of_numeric _ hnum
    refine ⟨⟨mapCenter (mainPagePoints rows), ms⟩, ?_⟩
    rw [create_map, hms]

/-- Witness for C9: one never-rated row (NULL average) makes the
renderer raise, one rated row renders fine. -/
theorem C9_none_rating_raises_witness :
    create_map (mainPagePoints [⟨10, 20, none⟩]) =
      .error ("TypeError: '>' not supported between instances of 'NoneType' and 'int'") ∧
    ∃ m, create_map (mainPagePoints [⟨10, 20, some 3⟩]) = .ok m :=
  ⟨(C9_none_rating_raises [⟨10, 20, none⟩]).1 ⟨⟨10, 20, none⟩, by simp, rfl⟩,
   (C9_none_rating_raises [⟨10, 20, some 3⟩]).2 (by simp)⟩

/-- C10 (implicit): the body `rating = true` passes the `isinstance`
check (a Python boolean is an `int`) and the range check, so `True` is
appended to the stored list — where it compares equal to 1 — and folded
into the average as 1; the body `rating = false` also passes the
`isinstance` check and is rejected by the range check with the
between-1-and-5 message, not by the type check. -/
theorem C10_boolean_rating (db : Store) (id : ℤ) (row : WifiRow)
    (hrow : lookupRow db id = some row) :
    isinstance_int (.bool true) = true ∧
    isinstance_int (.bool false) = true ∧
    rate_point db id (some [("rating", .bool true)]) =
      (.resp 200 (.okPoint id),
       updateRow db id
         (setRatings (pyList row.ratings ++ [1])
           (round2 (((pyList row.ratings ++ [1]).sum : ℚ) /
             ((pyList row.ratings ++ [1]).length : ℚ))))) ∧
    rate_point db id (some [("rating", .bool false)]) =
      (.resp 400 (.errorMsg ("Rating must be between 1 and 5")), db) := by
  refine ⟨rfl, rfl, ?_, ?_⟩
  · simp [rate_point, List.find?, isinstance_int, jvalueToInt, hrow]
  · simp [rate_point, List.find?, isinstance_int, jvalueToInt]

/-- Witness for C10 at a store holding one point with ratings `[3]`:
`rating = true` succeeds and persists ratings `[3, 1]` with average `2`,
`rating = false` gets the range error. -/
theorem C10_boolean_rating_witness :
    rate_point [((2 : ℤ), ⟨0, 0, none, some [3], none⟩)] 2
        (some [("rating", .bool true)]) =
      (.resp 200 (.okPoint 2),
       [((2 : ℤ), ⟨0, 0, none, some [3, 1], some 2⟩)]) ∧
    rate_point [((2 : ℤ), ⟨0, 0, none, some [3], none⟩)] 2
        (some [("rating", .bool false)]) =
      (.resp 400 (.errorMsg ("Rating must be between 1 and 5")),
       [((2 : ℤ), ⟨0, 0, none, some [3], none⟩)]) := by
  obtain ⟨-, -, htrue, hfalse⟩ :=
    C10_boolean_rating [((2 : ℤ), ⟨0, 0, none, some [3], none⟩)] 2
      ⟨0, 0, none, some [3], none⟩ (by rfl)
  refine ⟨?_, hfalse⟩
  rw [htrue]
  have h2 : round2 (2 : ℚ) = 2 := by
    have h := round2_intCast 2
    norm_num at h
    exact h
  simp [updateRow, setRatings, pyList]
  norm_num [h2]

end GNet
